import Mathlib

/-!
# Alchemynger — verification of the session-lifecycle / execute contract

Shallow embedding of `alchemynger/manager.py` (classes `Manager`,
`SyncManager`, `AsyncManager`).  Python exceptions are modelled with
`Except PyErr`; the SQLAlchemy collaborators (engine construction, the
`Result` object, the ORM `Session`) are modelled by explicit parameters
and a small state record.  Each per-session driver-visible step
(`session.execute`, result materialization, `session.commit`,
`session.close`) is recorded, in program order, in a trace carried by the
session state, so ordering and frame properties of the source can be
stated.  The asynchronous variant is embedded from its own source lines
(`await` points disappear in a pure embedding): `AsyncManager`'s bodies
are token-identical to `SyncManager`'s modulo `async`/`await`.
-/

namespace Alchemynger

/-- Python exception kinds reaching the embedded code.
`argumentError` and `resourceClosedError` are `sqlalchemy.exc.ArgumentError`
and `sqlalchemy.exc.ResourceClosedError`; `badPathError` is the package's
own `alchemynger.exception.BadPathError` (its class lives in
`exception.py`, a plain exception subclass; only its message payload
matters here); `runtimeError` is the builtin `RuntimeError`; `otherExc`
stands for any further exception a collaborator may raise (constraint
violations, connectivity loss, ...), which the manager never intercepts. -/
inductive PyErr where
  | argumentError
  | resourceClosedError
  | badPathError (msg : String)
  | runtimeError (msg : String)
  | otherExc (code : Nat)
deriving DecidableEq, Repr

/-- The engine handle returned by `create_engine`/`create_async_engine`,
identified by the URL it was built from. -/
structure Engine where
  url : String
deriving DecidableEq, Repr

/-- Configuration captured by `sessionmaker(bind=..., autoflush=...,
expire_on_commit=..., **kwargs)`; `class_` is the optional `session_type`
override installed by `kwargs.setdefault("class_", session_type)`
(the session class is opaque, a `Nat` tag). -/
structure SessionMakerCfg where
  autoflush : Bool
  expire_on_commit : Bool
  class_ : Option Nat := none
deriving DecidableEq, Repr

/-- The attribute state of a `Manager` instance.  `path` is `self._path`;
`engine` and `session_maker` model the instance attributes, with the
class-level default `session_maker: Any = None` giving `none` before
`_engine_init` assigns them (the `Base` registry attribute is not modelled:
no claim mentions it).  The source never assigns these attributes outside
`__init__`/`_engine_init`, so operations below take a `Manager` and return
no updated one. -/
structure Manager where
  path : String
  engine : Option Engine := none
  session_maker : Option SessionMakerCfg := none
deriving DecidableEq, Repr

/-- Driver-visible per-session steps, recorded in program order. -/
inductive Event where
  | exec
  | materialize
  | commit
  | close
deriving DecidableEq, Repr

/-- State of one SQLAlchemy `Session` (sync) / `AsyncSession` (async):
the program-order trace of driver-visible calls made on it, and whether
it has been closed. -/
structure Session where
  trace : List Event := []
  closed : Bool := false
deriving DecidableEq, Repr

/-- `session.close()`: releases driver-level resources.  The source runs
it in the generator's `finally:` and again via the `with session` block;
close is idempotent, so the net effect is modelled once. -/
def Session.close (s : Session) : Session :=
  { s with trace := s.trace ++ [Event.close], closed := true }

/-- `session.commit()` / `await session.commit()`. -/
def Session.commit (s : Session) : Session :=
  { s with trace := s.trace ++ [Event.commit] }

/-- Raw driver result of `session.execute(statement)`: either a readable
result set (rows of cells) or the no-result-set state of a non-returning
INSERT/UPDATE/DELETE, whose materialization raises `ResourceClosedError`. -/
inductive RawResult where
  | noResultSet
  | rows (rs : List (List Int))
deriving DecidableEq, Repr

/-- A normalized element returned by `execute`: a first-column /
single-entity value (`scalars=True`) or a full row (`scalars=False`). -/
inductive ResValue where
  | scalar (c : Int)
  | row (r : List Int)
deriving DecidableEq, Repr

/-- `result.scalars().all()`: first-column values, or
`ResourceClosedError` when no result set is associated with the statement. -/
def RawResult.scalarsAll : RawResult → Except PyErr (List ResValue)
  | RawResult.noResultSet => Except.error PyErr.resourceClosedError
  | RawResult.rows rs => Except.ok (rs.map (fun r => ResValue.scalar r.headI))

/-- `result.all()`: full rows, or `ResourceClosedError` when no result
set is associated with the statement. -/
def RawResult.allRows : RawResult → Except PyErr (List ResValue)
  | RawResult.noResultSet => Except.error PyErr.resourceClosedError
  | RawResult.rows rs => Except.ok (rs.map ResValue.row)

/-- `session.execute(statement=statement)` (and its awaited async twin):
the database behaviour is the parameter `db`; the call is recorded on the
session's trace whether it succeeds or raises. -/
def Session.statementExecute {Stmt : Type} (s : Session)
    (db : Stmt → Except PyErr RawResult) (statement : Stmt) :
    Except PyErr RawResult × Session :=
  (db statement, { s with trace := s.trace ++ [Event.exec] })

/-- The materialization call (`result.scalars().all()` / `result.all()`)
recorded on the session's program-order trace; it happens whether the
call returns or raises. -/
def Session.logMaterialize (s : Session) : Session :=
  { s with trace := s.trace ++ [Event.materialize] }

/-- `Manager._engine_init`: builds the engine via the class's
`_engine_fabric` (parameter `fabric`, i.e. `create_engine` or
`create_async_engine`), translating `ArgumentError` into `BadPathError`
and letting every other exception propagate; then builds the session
maker from the engine with the given flags and optional `session_type`.
Returns the instance with both attributes assigned. -/
def Manager.engine_init (fabric : String → Except PyErr Engine) (m : Manager)
    (session_type : Option Nat) (autoflush expire_on_commit : Bool) :
    Except PyErr Manager :=
  match fabric m.path with
  | Except.error PyErr.argumentError =>
      Except.error (PyErr.badPathError
        ("Could not parse SQLAlchemy URL from string " ++ m.path))
  | Except.error e => Except.error e
  | Except.ok eng =>
      Except.ok { m with
        engine := some eng,
        session_maker := some
          { autoflush := autoflush,
            expire_on_commit := expire_on_commit,
            class_ := session_type } }

/-- `Manager.__init__`: stores `path` in `self._path` and immediately
calls `self._engine_init(...)` — engine and session maker are created
during construction. -/
def Manager.init (fabric : String → Except PyErr Engine) (path : String)
    (session_type : Option Nat) (autoflush expire_on_commit : Bool) :
    Except PyErr Manager :=
  Manager.engine_init fabric { path := path } session_type autoflush expire_on_commit

/-- The message of the `RuntimeError` raised (typo included) when
`self.session_maker is None`. -/
def missingMakerMsg (path : String) : String :=
  "The manager is is missing engine or/and session maker " ++ path

namespace SyncManager

/-- `SyncManager.get_session` (a `@contextmanager`): raises `RuntimeError`
naming `self._path` when `session_maker is None`; otherwise produces a
fresh session, yields it to the caller's block (`body`, an arbitrary
computation that may itself raise), and closes the session in `finally:`
whatever the block's outcome.  The second component is the session's
final state, `none` when no session was produced. -/
def get_session {α : Type} (m : Manager)
    (body : Session → Except PyErr α × Session) :
    Except PyErr α × Option Session :=
  match m.session_maker with
  | none => (Except.error (PyErr.runtimeError (missingMakerMsg m.path)), none)
  | some _ =>
      let s0 : Session := {}
      let (r, s1) := body s0
      (r, some s1.close)

/-- `SyncManager.execute`: acquires a scoped session, runs the statement,
materializes with `result.scalars().all() if scalars else result.all()`
inside a `try` that catches exactly `ResourceClosedError` (normalized to
`None`), then `session.commit() if commit else None`, and returns the
normalized value. -/
def execute {Stmt : Type} (m : Manager) (db : Stmt → Except PyErr RawResult)
    (statement : Stmt) (commit scalars : Bool) :
    Except PyErr (Option (List ResValue)) × Option Session :=
  get_session m (fun session =>
    match session.statementExecute db statement with
    | (Except.error e, s1) => (Except.error e, s1)
    | (Except.ok result, s1) =>
        let s2 := s1.logMaterialize
        let tryRes : Except PyErr (Option (List ResValue)) :=
          match (if scalars then result.scalarsAll else result.allRows) with
          | Except.ok vs => Except.ok (some vs)
          | Except.error PyErr.resourceClosedError => Except.ok none
          | Except.error e => Except.error e
        match tryRes with
        | Except.error e => (Except.error e, s2)
        | Except.ok scal_or_rows =>
            let s3 := if commit then s2.commit else s2
            (Except.ok scal_or_rows, s3))

/-- `manager.execute(stmt)` with the declared keyword defaults
`commit: bool = False`, `scalars: bool = True`. -/
def executeDefault {Stmt : Type} (m : Manager)
    (db : Stmt → Except PyErr RawResult) (statement : Stmt) :
    Except PyErr (Option (List ResValue)) × Option Session :=
  execute m db statement false true

end SyncManager

namespace AsyncManager

/-- `AsyncManager.get_session` (an `@asynccontextmanager`): same body as
the sync variant with `async with`/`await`; suspension points vanish in
the pure embedding. -/
def get_session {α : Type} (m : Manager)
    (body : Session → Except PyErr α × Session) :
    Except PyErr α × Option Session :=
  match m.session_maker with
  | none => (Except.error (PyErr.runtimeError (missingMakerMsg m.path)), none)
  | some _ =>
      let s0 : Session := {}
      let (r, s1) := body s0
      (r, some s1.close)

/-- `AsyncManager.execute`: same body as the sync variant with awaited
statement execution and commit. -/
def execute {Stmt : Type} (m : Manager) (db : Stmt → Except PyErr RawResult)
    (statement : Stmt) (commit scalars : Bool) :
    Except PyErr (Option (List ResValue)) × Option Session :=
  get_session m (fun session =>
    match session.statementExecute db statement with
    | (Except.error e, s1) => (Except.error e, s1)
    | (Except.ok result, s1) =>
        let s2 := s1.logMaterialize
        let tryRes : Except PyErr (Option (List ResValue)) :=
          match (if scalars then result.scalarsAll else result.allRows) with
          | Except.ok vs => Except.ok (some vs)
          | Except.error PyErr.resourceClosedError => Except.ok none
          | Except.error e => Except.error e
        match tryRes with
        | Except.error e => (Except.error e, s2)
        | Except.ok scal_or_rows =>
            let s3 := if commit then s2.commit else s2
            (Except.ok scal_or_rows, s3))

/-- `await manager.execute(stmt)` with the declared keyword defaults
`commit: bool = False`, `scalars: bool = True`. -/
def executeDefault {Stmt : Type} (m : Manager)
    (db : Stmt → Except PyErr RawResult) (statement : Stmt) :
    Except PyErr (Option (List ResValue)) × Option Session :=
  execute m db statement false true

end AsyncManager

/-! Concrete fixtures used by witnesses and counterexamples: an engine
fabric that parses every URL, one that rejects every URL with
`ArgumentError` (as `create_engine` does on a malformed string), a
connected manager, a manager in the pre-`_engine_init` attribute state,
and two database behaviours (statements are opaque `Nat` tags). -/

def fabOk : String → Except PyErr Engine :=
  fun s => Except.ok { url := s }

def fabBad : String → Except PyErr Engine :=
  fun _ => Except.error PyErr.argumentError

def cfg0 : SessionMakerCfg :=
  { autoflush := true, expire_on_commit := true }

def mConn : Manager :=
  { path := "sqlite:///testS.db",
    engine := some { url := "sqlite:///testS.db" },
    session_maker := some cfg0 }

def mNoMaker : Manager :=
  { path := "sqlite:///testS.db" }

def dbNoResult : Nat → Except PyErr RawResult :=
  fun _ => Except.ok RawResult.noResultSet

def dbTwoRows : Nat → Except PyErr RawResult :=
  fun _ => Except.ok (RawResult.rows [[1, 10], [2, 20]])

def bodyPure : Session → Except PyErr Bool × Session :=
  fun s => (Except.ok true, s)

def bodyRaise : Session → Except PyErr Bool × Session :=
  fun s => (Except.error (PyErr.otherExc 7), s)

/-- The session state left by an empty `get_session` block: only the
`finally:` close ran. -/
def sClosedEx : Session :=
  { trace := [Event.close], closed := true }

/-- The session state left by `execute` with `commit=False` on a
successful statement: no commit step appears in the trace. -/
def sExecNoCommit : Session :=
  { trace := [Event.exec, Event.materialize, Event.close], closed := true }

/-- Helper: when a session maker is present, `get_session` runs the body
on a fresh session and closes the body's final session. -/
theorem get_session_eq {α : Type} {m : Manager} {cfg : SessionMakerCfg}
    (body : Session → Except PyErr α × Session)
    (hm : m.session_maker = some cfg) :
    SyncManager.get_session m body
      = ((body {}).1, some ((body {}).2.close)) := by
  unfold SyncManager.get_session
  rw [hm]

/-- Helper: when the session maker is absent, `get_session` raises the
`RuntimeError` and produces no session. -/
theorem get_session_none_eq {α : Type} {m : Manager}
    (body : Session → Except PyErr α × Session)
    (hm : m.session_maker = none) :
    SyncManager.get_session m body
      = (Except.error (PyErr.runtimeError (missingMakerMsg m.path)), none) := by
  unfold SyncManager.get_session
  rw [hm]

/-- Helper: any session produced by `get_session` is closed. -/
theorem get_session_snd_closed {α : Type} {m : Manager}
    {body : Session → Except PyErr α × Session} {s : Session}
    (h : (SyncManager.get_session m body).2 = some s) : s.closed = true := by
  cases hm : m.session_maker with
  | none => rw [get_session_none_eq body hm] at h; cases h
  | some cfg =>
      rw [get_session_eq body hm] at h
      cases h
      rfl

/-- Helper: a successful `_engine_init` yields the instance with the
engine delivered by the fabric and a session maker built from the flags. -/
theorem engine_init_ok_iff (fabric : String → Except PyErr Engine)
    (m m' : Manager) (st : Option Nat) (af eoc : Bool) :
    Manager.engine_init fabric m st af eoc = Except.ok m'
      ↔ ∃ eng, fabric m.path = Except.ok eng ∧
          m' = { m with engine := some eng,
                        session_maker := some
                          { autoflush := af, expire_on_commit := eoc,
                            class_ := st } } := by
  unfold Manager.engine_init
  cases hf : fabric m.path with
  | error e => cases e <;> simp
  | ok eng => simp [eq_comm]

/-- Helper: the async `get_session` body is the sync one with the
suspension points erased, so the two are definitionally equal. -/
theorem get_session_async_eq_sync {α : Type} (m : Manager)
    (body : Session → Except PyErr α × Session) :
    AsyncManager.get_session m body = SyncManager.get_session m body := rfl

/-- Helper: the async `execute` body is the sync one with the suspension
points erased, so the two are definitionally equal. -/
theorem execute_async_eq_sync {Stmt : Type} (m : Manager)
    (db : Stmt → Except PyErr RawResult) (statement : Stmt)
    (commit scalars : Bool) :
    AsyncManager.execute m db statement commit scalars
      = SyncManager.execute m db statement commit scalars := rfl

/-- C8: the synchronous and asynchronous managers implement one shared
contract — for the same manager state and the same arguments,
`get_session` and `execute` (and the keyword-default call shape of
`execute`) of the two variants are extensionally equal, hence have
identical preconditions, identical normalized results and identical
error kinds; the variants differ only in suspension points, which a pure
embedding erases. -/
theorem sync_async_shared_contract :
    (∀ (α : Type) (m : Manager) (body : Session → Except PyErr α × Session),
        SyncManager.get_session m body = AsyncManager.get_session m body)
  ∧ (∀ (Stmt : Type) (m : Manager) (db : Stmt → Except PyErr RawResult)
        (statement : Stmt) (commit scalars : Bool),
        SyncManager.execute m db statement commit scalars
          = AsyncManager.execute m db statement commit scalars)
  ∧ (∀ (Stmt : Type) (m : Manager) (db : Stmt → Except PyErr RawResult)
        (statement : Stmt),
        SyncManager.executeDefault m db statement
          = AsyncManager.executeDefault m db statement) :=
  ⟨fun _ _ _ => rfl, fun _ _ _ _ _ _ => rfl, fun _ _ _ _ => rfl⟩

/-- C4: on a manager whose session maker is absent, `get_session` and
`execute` — sync and async — fail with the `RuntimeError` (the spec's
`NotConnectedError`) whose message names the connection descriptor
`m.path`, and no session is produced. -/
theorem not_connected_error (m : Manager) (h : m.session_maker = none) :
    (∀ (α : Type) (body : Session → Except PyErr α × Session),
        SyncManager.get_session m body
          = (Except.error (PyErr.runtimeError
              ("The manager is is missing engine or/and session maker "
                ++ m.path)), none))
  ∧ (∀ (α : Type) (body : Session → Except PyErr α × Session),
        AsyncManager.get_session m body
          = (Except.error (PyErr.runtimeError
              ("The manager is is missing engine or/and session maker "
                ++ m.path)), none))
  ∧ (∀ (Stmt : Type) (db : Stmt → Except PyErr RawResult) (statement : Stmt)
        (commit scalars : Bool),
        SyncManager.execute m db statement commit scalars
          = (Except.error (PyErr.runtimeError
              ("The manager is is missing engine or/and session maker "
                ++ m.path)), none))
  ∧ (∀ (Stmt : Type) (db : Stmt → Except PyErr RawResult) (statement : Stmt)
        (commit scalars : Bool),
        AsyncManager.execute m db statement commit scalars
          = (Except.error (PyErr.runtimeError
              ("The manager is is missing engine or/and session maker "
                ++ m.path)), none)) := by
  refine ⟨fun α body => ?_, fun α body => ?_,
          fun Stmt db statement commit scalars => ?_,
          fun Stmt db statement commit scalars => ?_⟩
  · exact get_session_none_eq _ h
  · unfold AsyncManager.get_session; rw [h]; rfl
  · exact get_session_none_eq _ h
  · unfold AsyncManager.execute AsyncManager.get_session; rw [h]; rfl

/-- C4 witness: `execute` on the concrete unconnected manager fails with
the descriptor-naming `RuntimeError`. -/
theorem not_connected_error_witness :
    SyncManager.execute mNoMaker dbTwoRows 0 true true
      = (Except.error (PyErr.runtimeError
          ("The manager is is missing engine or/and session maker "
            ++ mNoMaker.path)), none) :=
  (not_connected_error mNoMaker rfl).2.2.1 Nat dbTwoRows 0 true true

/-- C5: when the engine fabric rejects the connection descriptor with
`ArgumentError`, `_engine_init` fails with the package's own
`BadPathError` carrying a descriptive message naming the descriptor; and
for every fabric and every manager, `_engine_init` never surfaces the
raw `ArgumentError` itself. -/
theorem invalid_descriptor_translated (fabric : String → Except PyErr Engine)
    (m : Manager) (st : Option Nat) (af eoc : Bool)
    (h : fabric m.path = Except.error PyErr.argumentError) :
    Manager.engine_init fabric m st af eoc
      = Except.error (PyErr.badPathError
          ("Could not parse SQLAlchemy URL from string " ++ m.path))
  ∧ ∀ (fabric2 : String → Except PyErr Engine) (m2 : Manager)
      (st2 : Option Nat) (af2 eoc2 : Bool),
      Manager.engine_init fabric2 m2 st2 af2 eoc2
        ≠ Except.error PyErr.argumentError := by
  constructor
  · unfold Manager.engine_init
    rw [h]
  · intro fabric2 m2 st2 af2 eoc2
    unfold Manager.engine_init
    cases hf : fabric2 m2.path with
    | error e => cases e <;> simp
    | ok eng => simp

/-- C5 witness: the always-rejecting fabric on the concrete manager
yields `BadPathError` with the descriptive message. -/
theorem invalid_descriptor_translated_witness :
    Manager.engine_init fabBad mNoMaker none true true
      = Except.error (PyErr.badPathError
          ("Could not parse SQLAlchemy URL from string " ++ mNoMaker.path)) :=
  (invalid_descriptor_translated fabBad mNoMaker none true true rfl).1

/-- C10: a successfully constructed manager has a non-`None` session
maker; the `session_maker is None` branch of `get_session` (sync and
async) is therefore unreachable for it — both variants always produce a
session; and the only assignment site, `_engine_init`, always installs a
non-`None` session maker when it succeeds (no operation of the source
ever writes `None` back). -/
theorem construction_always_connected (fabric : String → Except PyErr Engine)
    (path : String) (st : Option Nat) (af eoc : Bool) (m : Manager)
    (h : Manager.init fabric path st af eoc = Except.ok m) :
    m.session_maker.isSome = true
  ∧ (∀ (α : Type) (body : Session → Except PyErr α × Session),
      ((SyncManager.get_session m body).2).isSome = true)
  ∧ (∀ (α : Type) (body : Session → Except PyErr α × Session),
      ((AsyncManager.get_session m body).2).isSome = true)
  ∧ (∀ (fabric2 : String → Except PyErr Engine) (m2 : Manager)
       (st2 : Option Nat) (af2 eoc2 : Bool) (m2' : Manager),
      Manager.engine_init fabric2 m2 st2 af2 eoc2 = Except.ok m2' →
        m2'.session_maker.isSome = true) := by
  unfold Manager.init at h
  obtain ⟨eng, hf, hm⟩ := (engine_init_ok_iff _ _ _ _ _ _).1 h
  subst hm
  refine ⟨rfl, fun α body => ?_, fun α body => ?_, ?_⟩
  · rw [get_session_eq body rfl]; rfl
  · rw [get_session_async_eq_sync, get_session_eq body rfl]; rfl
  · intro fabric2 m2 st2 af2 eoc2 m2' h2
    obtain ⟨eng2, hf2, hm2⟩ := (engine_init_ok_iff _ _ _ _ _ _).1 h2
    subst hm2
    rfl

/-- C10 witness: the constructor output `mConn` has a session maker and
its `get_session` produces a session. -/
theorem construction_always_connected_witness :
    mConn.session_maker.isSome = true
  ∧ ((SyncManager.get_session mConn bodyPure).2).isSome = true :=
  ⟨(construction_always_connected fabOk "sqlite:///testS.db" none true true
      mConn rfl).1,
   (construction_always_connected fabOk "sqlite:///testS.db" none true true
      mConn rfl).2.1 Bool bodyPure⟩

/-- C3 counterexample: construction is eager — `__init__` on a parseable
descriptor returns with the engine already built and the session maker
already non-`None`, contradicting "the Session Factory is absent (None)
before a connect call" (no `connect` method exists in the source; the
session maker is never `None` after construction). -/
theorem eager_construction_counterexample :
    (Manager.init fabOk "sqlite:///testS.db" none true true).map
        Manager.session_maker
      = Except.ok (some { autoflush := true, expire_on_commit := true,
                          class_ := none })
  ∧ (Manager.init fabOk "sqlite:///testS.db" none true true).map
        Manager.engine
      = Except.ok (some { url := "sqlite:///testS.db" }) := ⟨rfl, rfl⟩

/-- C3 amended: construction connects eagerly — `__init__` itself calls
`_engine_init`, so a successful construction returns with the Engine
Handle created and the Session Factory non-`None`, configured from the
constructor's flags; there is no separate `connect` step. -/
theorem construction_creates_engine_and_maker
    (fabric : String → Except PyErr Engine) (path : String)
    (st : Option Nat) (af eoc : Bool) (m : Manager)
    (h : Manager.init fabric path st af eoc = Except.ok m) :
    m.engine.isSome = true
  ∧ m.session_maker = some { autoflush := af, expire_on_commit := eoc,
                             class_ := st } := by
  unfold Manager.init at h
  obtain ⟨eng, hf, hm⟩ := (engine_init_ok_iff _ _ _ _ _ _).1 h
  subst hm
  exact ⟨rfl, rfl⟩

/-- C3 amended witness: the concrete constructed manager `mConn` has
both attributes set. -/
theorem construction_creates_engine_and_maker_witness :
    mConn.engine.isSome = true
  ∧ mConn.session_maker = some { autoflush := true, expire_on_commit := true,
                                 class_ := none } :=
  construction_creates_engine_and_maker fabOk "sqlite:///testS.db" none
    true true mConn rfl

/-- C1: every session produced by `get_session` — sync or async, used
directly or through `execute` — is closed when the scope exits, whatever
the body did (normal return or a propagating exception: the body's
outcome `Except` value is arbitrary), and whatever `execute`'s
normalization path did. -/
theorem session_closed_on_every_exit_path :
    (∀ (α : Type) (m : Manager) (body : Session → Except PyErr α × Session)
        (s : Session),
        (SyncManager.get_session m body).2 = some s → s.closed = true)
  ∧ (∀ (α : Type) (m : Manager) (body : Session → Except PyErr α × Session)
        (s : Session),
        (AsyncManager.get_session m body).2 = some s → s.closed = true)
  ∧ (∀ (Stmt : Type) (m : Manager) (db : Stmt → Except PyErr RawResult)
        (statement : Stmt) (commit scalars : Bool) (s : Session),
        (SyncManager.execute m db statement commit scalars).2 = some s →
          s.closed = true)
  ∧ (∀ (Stmt : Type) (m : Manager) (db : Stmt → Except PyErr RawResult)
        (statement : Stmt) (commit scalars : Bool) (s : Session),
        (AsyncManager.execute m db statement commit scalars).2 = some s →
          s.closed = true) := by
  refine ⟨fun α m body s h => get_session_snd_closed h,
          fun α m body s h => ?_,
          fun Stmt m db statement commit scalars s h => get_session_snd_closed h,
          fun Stmt m db statement commit scalars s h => ?_⟩
  · rw [get_session_async_eq_sync] at h
    exact get_session_snd_closed h
  · rw [execute_async_eq_sync] at h
    exact get_session_snd_closed h

/-- C1 witness: on the connected manager, both a normally returning
block and a block that raises leave a closed session. -/
theorem session_closed_on_every_exit_path_witness :
    ((SyncManager.get_session mConn bodyPure).2 = some sClosedEx
      ∧ sClosedEx.closed = true)
  ∧ ((SyncManager.get_session mConn bodyRaise).2 = some sClosedEx
      ∧ sClosedEx.closed = true) :=
  ⟨⟨rfl, session_closed_on_every_exit_path.1 Bool mConn bodyPure sClosedEx rfl⟩,
   ⟨rfl, session_closed_on_every_exit_path.1 Bool mConn bodyRaise sClosedEx rfl⟩⟩

/-- Helper: `execute` on an unconnected manager is the `get_session`
failure. -/
theorem execute_none_eq {Stmt : Type} (m : Manager)
    (db : Stmt → Except PyErr RawResult) (statement : Stmt)
    (commit scalars : Bool) (hm : m.session_maker = none) :
    SyncManager.execute m db statement commit scalars
      = (Except.error (PyErr.runtimeError (missingMakerMsg m.path)), none) :=
  get_session_none_eq _ hm

/-- Helper: `execute` on a connected manager whose statement execution
succeeds returns the caught materialization of the raw result and leaves
a closed session whose trace is exec, materialize, the optional commit,
close — in that order. -/
theorem execute_eq_of_ok {Stmt : Type} {m : Manager} {cfg : SessionMakerCfg}
    {db : Stmt → Except PyErr RawResult} {statement : Stmt} {raw : RawResult}
    (commit scalars : Bool)
    (hm : m.session_maker = some cfg) (hdb : db statement = Except.ok raw) :
    SyncManager.execute m db statement commit scalars
      = (Except.ok (match (if scalars then raw.scalarsAll else raw.allRows) with
                    | Except.ok vs => some vs
                    | Except.error _ => none),
         some { trace := [Event.exec, Event.materialize]
                  ++ (if commit then [Event.commit] else []) ++ [Event.close],
                closed := true }) := by
  cases raw <;> cases scalars <;> cases commit <;>
    simp [SyncManager.execute, SyncManager.get_session, hm, hdb,
          Session.statementExecute, Session.logMaterialize, Session.commit,
          Session.close, RawResult.scalarsAll, RawResult.allRows]

/-- Helper: `execute` on a connected manager whose statement execution
raises propagates the exception unmodified; the session still closes
and no materialization or commit step runs. -/
theorem execute_eq_of_err {Stmt : Type} {m : Manager} {cfg : SessionMakerCfg}
    {db : Stmt → Except PyErr RawResult} {statement : Stmt} {e : PyErr}
    (commit scalars : Bool)
    (hm : m.session_maker = some cfg) (hdb : db statement = Except.error e) :
    SyncManager.execute m db statement commit scalars
      = (Except.error e,
         some { trace := [Event.exec, Event.close], closed := true }) := by
  simp [SyncManager.execute, SyncManager.get_session, hm, hdb,
        Session.statementExecute, Session.close]

/-- C2: on a connected manager, a statement whose raw result has no
readable result set (materialization raises `ResourceClosedError`) makes
`execute` — sync and async, for any `commit` and `scalars` — return the
`None` sentinel; the condition never reaches the caller as an exception. -/
theorem no_result_set_normalized {Stmt : Type} (m : Manager)
    (cfg : SessionMakerCfg) (db : Stmt → Except PyErr RawResult)
    (statement : Stmt) (commit scalars : Bool)
    (hm : m.session_maker = some cfg)
    (hdb : db statement = Except.ok RawResult.noResultSet) :
    (SyncManager.execute m db statement commit scalars).1 = Except.ok none
  ∧ (AsyncManager.execute m db statement commit scalars).1
      = Except.ok none := by
  constructor
  · rw [execute_eq_of_ok commit scalars hm hdb]
    cases scalars <;> rfl
  · rw [execute_async_eq_sync, execute_eq_of_ok commit scalars hm hdb]
    cases scalars <;> rfl

/-- C2 witness: a non-returning statement on the connected manager with
`commit=True` yields the `None` sentinel, not an exception. -/
theorem no_result_set_normalized_witness :
    (SyncManager.execute mConn dbNoResult 0 true true).1 = Except.ok none :=
  (no_result_set_normalized mConn cfg0 dbNoResult 0 true true rfl rfl).1

/-- C6: with `commit=True` — sync and async — the commit step is
recorded strictly after the materialization step (the final trace is
exec, materialize, commit, close), and the value returned to the caller
is the same one `execute` returns without committing at all, so it does
not depend on the session surviving the commit. -/
theorem commit_after_materialization {Stmt : Type} (m : Manager)
    (cfg : SessionMakerCfg) (db : Stmt → Except PyErr RawResult)
    (statement : Stmt) (raw : RawResult) (scalars : Bool)
    (hm : m.session_maker = some cfg) (hdb : db statement = Except.ok raw) :
    (SyncManager.execute m db statement true scalars).2
      = some { trace := [Event.exec, Event.materialize, Event.commit,
                         Event.close], closed := true }
  ∧ (SyncManager.execute m db statement true scalars).1
      = (SyncManager.execute m db statement false scalars).1
  ∧ (AsyncManager.execute m db statement true scalars).2
      = some { trace := [Event.exec, Event.materialize, Event.commit,
                         Event.close], closed := true }
  ∧ (AsyncManager.execute m db statement true scalars).1
      = (AsyncManager.execute m db statement false scalars).1 := by
  refine ⟨?_, ?_, ?_, ?_⟩
  · rw [execute_eq_of_ok true scalars hm hdb]; rfl
  · rw [execute_eq_of_ok true scalars hm hdb,
        execute_eq_of_ok false scalars hm hdb]
  · rw [execute_async_eq_sync, execute_eq_of_ok true scalars hm hdb]; rfl
  · rw [execute_async_eq_sync m db statement true scalars,
        execute_async_eq_sync m db statement false scalars,
        execute_eq_of_ok true scalars hm hdb,
        execute_eq_of_ok false scalars hm hdb]

/-- C6 witness: on the concrete connected manager and two-row statement,
the trace shows commit strictly after materialization. -/
theorem commit_after_materialization_witness :
    (SyncManager.execute mConn dbTwoRows 0 true true).2
      = some { trace := [Event.exec, Event.materialize, Event.commit,
                         Event.close], closed := true } :=
  (commit_after_materialization mConn cfg0 dbTwoRows 0
      (RawResult.rows [[1, 10], [2, 20]]) true rfl rfl).1

/-- C7: the manager never commits implicitly — `execute` with
`commit=False` (sync and async) leaves a trace with no commit step for
every database outcome, and `get_session` itself only appends the close
step to whatever the caller's block did, so it never commits. -/
theorem no_implicit_commit :
    (∀ (Stmt : Type) (m : Manager) (db : Stmt → Except PyErr RawResult)
        (statement : Stmt) (scalars : Bool) (s : Session),
        (SyncManager.execute m db statement false scalars).2 = some s →
          Event.commit ∉ s.trace)
  ∧ (∀ (Stmt : Type) (m : Manager) (db : Stmt → Except PyErr RawResult)
        (statement : Stmt) (scalars : Bool) (s : Session),
        (AsyncManager.execute m db statement false scalars).2 = some s →
          Event.commit ∉ s.trace)
  ∧ (∀ (α : Type) (m : Manager) (body : Session → Except PyErr α × Session)
        (r : Except PyErr α) (s : Session),
        SyncManager.get_session m body = (r, some s) →
          s.trace = ((body {}).2).trace ++ [Event.close])
  ∧ (∀ (α : Type) (m : Manager) (body : Session → Except PyErr α × Session)
        (r : Except PyErr α) (s : Session),
        AsyncManager.get_session m body = (r, some s) →
          s.trace = ((body {}).2).trace ++ [Event.close]) := by
  have hexec : ∀ (Stmt : Type) (m : Manager) (db : Stmt → Except PyErr RawResult)
      (statement : Stmt) (scalars : Bool) (s : Session),
      (SyncManager.execute m db statement false scalars).2 = some s →
        Event.commit ∉ s.trace := by
    intro Stmt m db statement scalars s h
    cases hm : m.session_maker with
    | none =>
        rw [execute_none_eq m db statement false scalars hm] at h
        cases h
    | some cfg =>
        cases hdb : db statement with
        | error e =>
            rw [execute_eq_of_err false scalars hm hdb] at h
            cases h
            decide
        | ok raw =>
            rw [execute_eq_of_ok false scalars hm hdb] at h
            cases h
            decide
  have hsess : ∀ (α : Type) (m : Manager)
      (body : Session → Except PyErr α × Session)
      (r : Except PyErr α) (s : Session),
      SyncManager.get_session m body = (r, some s) →
        s.trace = ((body {}).2).trace ++ [Event.close] := by
    intro α m body r s h
    cases hm : m.session_maker with
    | none =>
        rw [get_session_none_eq body hm] at h
        simp at h
    | some cfg =>
        rw [get_session_eq body hm] at h
        simp only [Prod.mk.injEq, Option.some.injEq] at h
        obtain ⟨hr, hs⟩ := h
        rw [← hs]
        rfl
  refine ⟨hexec, ?_, hsess, ?_⟩
  · intro Stmt m db statement scalars s h
    rw [execute_async_eq_sync] at h
    exact hexec Stmt m db statement scalars s h
  · intro α m body r s h
    rw [get_session_async_eq_sync] at h
    exact hsess α m body r s h

/-- C7 witness: a `commit=False` `execute` on the connected manager
leaves the concrete trace exec, materialize, close — no commit step. -/
theorem no_implicit_commit_witness :
    Event.commit ∉ sExecNoCommit.trace :=
  no_implicit_commit.1 Nat mConn dbTwoRows 0 true sExecNoCommit rfl

/-- C9: on a connected manager with a readable result set,
`scalars=True` returns the first-column values and `scalars=False`
returns the full rows — sync and async — and the keyword defaults are
`commit=False`, `scalars=True`. -/
theorem scalars_normalization {Stmt : Type} (m : Manager)
    (cfg : SessionMakerCfg) (db : Stmt → Except PyErr RawResult)
    (statement : Stmt) (rs : List (List Int)) (commit : Bool)
    (hm : m.session_maker = some cfg)
    (hdb : db statement = Except.ok (RawResult.rows rs)) :
    (SyncManager.execute m db statement commit true).1
      = Except.ok (some (rs.map (fun r => ResValue.scalar r.headI)))
  ∧ (SyncManager.execute m db statement commit false).1
      = Except.ok (some (rs.map ResValue.row))
  ∧ (AsyncManager.execute m db statement commit true).1
      = Except.ok (some (rs.map (fun r => ResValue.scalar r.headI)))
  ∧ (AsyncManager.execute m db statement commit false).1
      = Except.ok (some (rs.map ResValue.row))
  ∧ SyncManager.executeDefault m db statement
      = SyncManager.execute m db statement false true
  ∧ AsyncManager.executeDefault m db statement
      = AsyncManager.execute m db statement false true := by
  refine ⟨?_, ?_, ?_, ?_, rfl, rfl⟩
  · rw [execute_eq_of_ok commit true hm hdb]; rfl
  · rw [execute_eq_of_ok commit false hm hdb]; rfl
  · rw [execute_async_eq_sync, execute_eq_of_ok commit true hm hdb]; rfl
  · rw [execute_async_eq_sync, execute_eq_of_ok commit false hm hdb]; rfl

/-- C9 witness: the two-row result set yields first-column scalars under
`scalars=True` and full rows under `scalars=False`. -/
theorem scalars_normalization_witness :
    (SyncManager.execute mConn dbTwoRows 0 true true).1
      = Except.ok (some ([[1, 10], [2, 20]].map
          (fun r => ResValue.scalar r.headI)))
  ∧ (SyncManager.execute mConn dbTwoRows 0 true false).1
      = Except.ok (some ([[1, 10], [2, 20]].map ResValue.row)) :=
  ⟨(scalars_normalization mConn cfg0 dbTwoRows 0 [[1, 10], [2, 20]] true
      rfl rfl).1,
   (scalars_normalization mConn cfg0 dbTwoRows 0 [[1, 10], [2, 20]] true
      rfl rfl).2.1⟩

end Alchemynger
